import Mathlib

/-!
Verification of the gcp-cloud-cost-optimizer repository.

The repository has two Cloud Functions, `cost_analyzer/main.py` (reporting path)
and `idle_shutdown/main.py` (shutdown path).  We embed their decision logic
shallowly:

* Python floats are modelled as exact rationals (`ℚ`); `round(x, n)` is
  modelled by `pyRound`, round-half-to-even at `n` decimal digits, which is
  Python 3 `round` semantics on exact values.
* Python dictionaries become association lists with first-match lookup
  (`dictGet` models `dict.get`).
* Every external collaborator (zone listing, instance listing, monitoring
  time-series query, billing query, stop call, SendGrid request) is an input
  of the run: an environment record field gives the outcome of each call,
  with `Option`-wrapping where the Python code catches an exception
  (`none` = the call raised).
* The free-text action lines of the shutdown path are abstracted to their
  branch (`SAction`), keeping the instance name and the raw CPU percentage;
  only the `%.2f` display formatting of the percentage is dropped.
-/

namespace CostOpt

/-- `dict.get k` on a Python dictionary, modelled as first-match lookup in an
association list. -/
def dictGet {α : Type} (k : String) : List (String × α) → Option α
  | [] => none
  | p :: t => if p.1 = k then some p.2 else dictGet k t

/-- Round-half-to-even to an integer, the rounding Python 3 `round` uses. -/
def roundHalfEven (q : ℚ) : ℤ :=
  if q - ⌊q⌋ < 1/2 then ⌊q⌋
  else if 1/2 < q - ⌊q⌋ then ⌊q⌋ + 1
  else if ⌊q⌋ % 2 = 0 then ⌊q⌋ else ⌊q⌋ + 1

/-- Python `round(x, n)` on an exact value. -/
def pyRound (n : Nat) (x : ℚ) : ℚ :=
  (roundHalfEven (x * 10 ^ n) : ℚ) / 10 ^ n

/-- `machine_type_full.split("/")[-1] if machine_type_full else ""`
(cost_analyzer/main.py line 133). -/
def lastSegment (s : String) : String :=
  if s = "" then "" else ((s.splitOn "/").reverse).headD ""

/-- The static hourly-rate table with default rate 0.05
(cost_analyzer/main.py `estimate_cost_by_machine`, lines 68-74). -/
def estimate_cost_by_machine (machine_type : String) : ℚ :=
  if machine_type = "e2-micro" then 0.0076
  else if machine_type = "e2-small" then 0.0166
  else if machine_type = "e2-medium" then 0.0332
  else if machine_type = "n1-standard-1" then 0.0475
  else if machine_type = "n1-standard-2" then 0.0950
  else if machine_type = "e2-standard-4" then 0.05
  else if machine_type = "e2-standard-2" then 0.03
  else 0.05

/-- Cost resolution as performed inline in the reporting path's main loop
(cost_analyzer/main.py lines 137-140): the billing-map value verbatim when
present, otherwise the hourly estimate times 24. -/
def resolve_cost (name machine_type : String) (billing : List (String × ℚ)) : ℚ :=
  match dictGet name billing with
  | some c => c
  | none => estimate_cost_by_machine machine_type * 24

/-- Outcome of one `list_time_series` call: `none` when the call raised, or a
list of series, each a list of points whose `double_value` may be absent. -/
abbrev MetricResult := Option (List (List (Option ℚ)))

/-- The `vals` list built by both metric aggregators: every present
`double_value`, across every point of every returned series, in order. -/
def collectPoints (series : List (List (Option ℚ))) : List ℚ :=
  (series.map (fun s => s.filterMap id)).flatten

/-- `get_cpu_avg` (cost_analyzer/main.py lines 36-66) applied to the outcome of
its time-series query: 0.0 on exception, 0.0 on an empty point set, otherwise
the arithmetic mean of all collected values. -/
def get_cpu_avg (res : MetricResult) : ℚ :=
  match res with
  | none => 0
  | some series =>
    if collectPoints series = [] then 0
    else (collectPoints series).sum / (collectPoints series).length

/-- `get_cpu_usage` (idle_shutdown/main.py lines 9-44), same aggregation as
`get_cpu_avg` in the other function. -/
def get_cpu_usage (res : MetricResult) : ℚ :=
  match res with
  | none => 0
  | some series =>
    if collectPoints series = [] then 0
    else (collectPoints series).sum / (collectPoints series).length

/-- State classification of the reporting path
(cost_analyzer/main.py line 142). -/
def classifyState (cpu_avg_12h cpu_threshold : ℚ) : String :=
  if cpu_avg_12h * 100 < cpu_threshold then "Idle" else "Active"

/-- One raw VM record as consumed from `compute.instances().list` items. -/
structure VM where
  name : String
  id : String
  labels : List (String × String)
  machineType : String
  status : String

/-- Environment of one reporting-path run: the outcome of every external call
it makes.  `zonesResp`: `none` = exception, `some none` = no `"items"` key,
`some (some zs)` = the zone names.  `instancesResp` likewise per zone.
`metrics id minutes` is the time-series query outcome for one instance id and
window.  `billing` is the map returned by `query_billing` (empty on failure). -/
structure CostEnv where
  zonesResp : Option (Option (List String))
  instancesResp : String → Option (Option (List VM))
  metrics : String → Nat → MetricResult
  billing : List (String × ℚ)
  cpu_threshold : ℚ
  dry_run : Bool
  project : String

/-- Zone list computation shared by both mains (cost_analyzer lines 110-114,
idle_shutdown lines 62-66): exception or missing `"items"` falls back to the
single zone `us-central1-a`. -/
def zonesOf (resp : Option (Option (List String))) : List String :=
  match resp with
  | none => ["us-central1-a"]
  | some none => ["us-central1-a"]
  | some (some zs) => zs

/-- Instances of one zone as seen by the per-zone loop body: an exception
(`continue`) or a missing `"items"` key (`continue`) contributes nothing. -/
def zoneVMs (resp : Option (Option (List VM))) : List VM :=
  match resp with
  | none => []
  | some none => []
  | some (some vms) => vms

/-- One entry of the report's `instances` list
(cost_analyzer/main.py lines 143-153). -/
structure InstanceEntry where
  name : String
  zone : String
  status : String
  labels : List (String × String)
  machine_type : String
  cpu_avg_1h_pct : ℚ
  cpu_avg_12h_pct : ℚ
  cost_24h : ℚ
  state : String

/-- Body of the reporting path's per-VM loop (cost_analyzer/main.py lines
128-153): returns the report entry together with the unrounded cost added to
the running total. -/
def processVM (e : CostEnv) (zone : String) (vm : VM) : InstanceEntry × ℚ :=
  let machine_type := lastSegment vm.machineType
  let cpu_avg_1h := get_cpu_avg (e.metrics vm.id 60)
  let cpu_avg_12h := get_cpu_avg (e.metrics vm.id 720)
  let cost := resolve_cost vm.name machine_type e.billing
  let state := classifyState cpu_avg_12h e.cpu_threshold
  (⟨vm.name, zone, vm.status, vm.labels, machine_type,
    pyRound 2 (cpu_avg_1h * 100), pyRound 2 (cpu_avg_12h * 100),
    pyRound 4 cost, state⟩, cost)

/-- The fleet walk in discovery order: zone-major, then within-zone listing
order, exactly the iteration order of the nested loops in both mains. -/
def walkVMs (zonesResp : Option (Option (List String)))
    (instancesResp : String → Option (Option (List VM))) : List (String × VM) :=
  (zonesOf zonesResp).flatMap (fun z => (zoneVMs (instancesResp z)).map (fun vm => (z, vm)))

/-- The `report` dictionary built at cost_analyzer/main.py lines 155-160. -/
structure FleetReport where
  project : String
  total_cost_24h : ℚ
  instances : List InstanceEntry
  dry_run : Bool

/-- The reporting path's fleet scan and report construction
(cost_analyzer/main.py lines 118-160): the running `total_cost` accumulates the
unrounded per-instance costs and is rounded once at the end; each entry's
`cost_24h` is rounded individually. -/
def runReport (e : CostEnv) : FleetReport :=
  let pairs := (walkVMs e.zonesResp e.instancesResp).map (fun p => processVM e p.1 p.2)
  { project := e.project
    total_cost_24h := pyRound 4 (pairs.foldl (fun acc p => acc + p.2) 0)
    instances := pairs.map Prod.fst
    dry_run := e.dry_run }

/-- Outcome of the `requests.post` to SendGrid: a response with status code and
text, or a raised exception with its message. -/
inductive HttpOutcome where
  | resp (status : Nat) (text : String)
  | exc (msg : String)

/-- The dictionary returned by `send_report_via_sendgrid`
(cost_analyzer/main.py lines 76-97). -/
structure SendResult where
  sent : Bool
  reason : Option String
  status : Option Nat
  body : Option String
  exception : Option String

/-- `send_report_via_sendgrid` (cost_analyzer/main.py lines 76-97) applied to
the outcome of its POST; a falsy (empty) key or address short-circuits to
`missing_config`. -/
def send_report_via_sendgrid (sendgrid_key admin_email from_email : String)
    (net : HttpOutcome) : SendResult :=
  if sendgrid_key = "" ∨ admin_email = "" ∨ from_email = "" then
    ⟨false, some "missing_config", none, none, none⟩
  else
    match net with
    | .resp status text =>
      if status = 200 ∨ status = 202 then ⟨true, none, some status, none, none⟩
      else ⟨false, none, some status, some text, none⟩
    | .exc msg => ⟨false, none, none, none, some msg⟩

/-- The value returned by the reporting path's `main` (cost_analyzer/main.py
line 165): the serialized report (serialization is a deterministic function of
the report, so the report itself stands for `json.dumps(report)`), the HTTP
status and the content-type header. -/
structure HttpTriple where
  bodyReport : FleetReport
  status : Nat
  contentType : String

/-- The reporting path's `main` from the fleet scan on (cost_analyzer/main.py
lines 118-165): builds the report, attempts the email send, logs the send
result, and returns the response triple. -/
def mainReport (e : CostEnv) (sendgrid_key admin_email from_email : String)
    (net : HttpOutcome) : HttpTriple × SendResult :=
  let report := runReport e
  let send_result := send_report_via_sendgrid sendgrid_key admin_email from_email net
  (⟨report, 200, "application/json"⟩, send_result)

/-- One action line of the shutdown path, abstracted to its branch
(idle_shutdown/main.py lines 84-103).  `pct` is the unformatted CPU percentage
the line displays with `%.2f`. -/
inductive SAction where
  | skipNoLabel (name : String)
  | dryRunWouldStop (name : String) (pct : ℚ)
  | stoppedOk (name : String) (pct : ℚ)
  | errorStopping (name : String)
  | activeLine (name : String) (pct : ℚ)
deriving DecidableEq

/-- The instance name an action line is about. -/
def SAction.aname : SAction → String
  | .skipNoLabel n => n
  | .dryRunWouldStop n _ => n
  | .stoppedOk n _ => n
  | .errorStopping n => n
  | .activeLine n _ => n

/-- Whether the action line comes from the idle branch `cpu_pct < cpu_threshold`
(idle_shutdown/main.py lines 92-101). -/
def SAction.isIdleAction : SAction → Bool
  | .skipNoLabel _ => false
  | .dryRunWouldStop _ _ => true
  | .stoppedOk _ _ => true
  | .errorStopping _ => true
  | .activeLine _ _ => false

/-- Environment of one shutdown-path run.  `stopOk zone name` tells whether the
stop call for that instance would succeed (`false` = it raises). -/
structure ShutdownEnv where
  zonesResp : Option (Option (List String))
  instancesResp : String → Option (Option (List VM))
  metrics : String → Nat → MetricResult
  stopOk : String → String → Bool
  cpu_threshold : ℚ
  dry_run : Bool

/-- Observable outcome of processing one VM in the shutdown loop: the appended
action line, how many metric queries were made and how many stop calls were
issued for this VM. -/
structure StepOut where
  action : SAction
  metricQueries : Nat
  stopCalls : Nat
deriving DecidableEq

/-- Body of the shutdown path's per-VM loop (idle_shutdown/main.py lines
78-103): skip without a metrics query unless the label `auto-shutdown` is
exactly `"true"`; otherwise query the 12h window and decide.  A failing stop
call was still issued (counted) and downgrades the line to the error line. -/
def shutdownStep (e : ShutdownEnv) (zone : String) (vm : VM) : StepOut :=
  if dictGet "auto-shutdown" vm.labels ≠ some "true" then
    ⟨.skipNoLabel vm.name, 0, 0⟩
  else
    let cpu_avg_12h := get_cpu_usage (e.metrics vm.id 720)
    let cpu_pct := cpu_avg_12h * 100
    if cpu_pct < e.cpu_threshold then
      if e.dry_run then ⟨.dryRunWouldStop vm.name cpu_pct, 1, 0⟩
      else if e.stopOk zone vm.name then ⟨.stoppedOk vm.name cpu_pct, 1, 1⟩
      else ⟨.errorStopping vm.name, 1, 1⟩
    else ⟨.activeLine vm.name cpu_pct, 1, 0⟩

/-- The shutdown path's full scan (idle_shutdown/main.py lines 59-103) in
discovery order; the returned JSON is `{"result": actions}` where `actions`
is the `action` component of each element in order. -/
def runShutdown (e : ShutdownEnv) : List StepOut :=
  (walkVMs e.zonesResp e.instancesResp).map (fun p => shutdownStep e p.1 p.2)

/-! Concrete fleets used to exercise the theorems on explicit inputs. -/

/-- A VM opted in to auto-shutdown. -/
def vmOpt : VM := ⟨"vm-opt", "101", [("auto-shutdown", "true")], "zones/z/machineTypes/e2-micro", "RUNNING"⟩

/-- A VM without the opt-in label. -/
def vmPlain : VM := ⟨"vm-plain", "102", [("team", "infra")], "zones/z/machineTypes/e2-small", "RUNNING"⟩

/-- Two-instance fleet whose billing costs round to 0 individually but whose
exact cost sum rounds to 0.0001. -/
def envRound : CostEnv :=
  { zonesResp := some (some ["us-central1-a"])
    instancesResp := fun z => if z = "us-central1-a"
      then some (some [⟨"vm-a", "1", [], "", "RUNNING"⟩, ⟨"vm-b", "2", [], "", "RUNNING"⟩])
      else none
    metrics := fun _ _ => none
    billing := [("vm-a", 3/100000), ("vm-b", 3/100000)]
    cpu_threshold := 5
    dry_run := true
    project := "demo" }

/-- Reporting-path run used by the noninterference witness: one busy 1-hour
window, a nearly idle 12-hour window. -/
def envNI1 : CostEnv :=
  { zonesResp := some (some ["us-central1-a"])
    instancesResp := fun z => if z = "us-central1-a" then some (some [vmOpt, vmPlain]) else none
    metrics := fun _ minutes => if minutes = 60 then some [[some (9/10)]] else some [[some (1/100)]]
    billing := [("vm-opt", 12/10)]
    cpu_threshold := 5
    dry_run := true
    project := "demo" }

/-- Same run with a different 1-hour reading only. -/
def envNI2 : CostEnv :=
  { envNI1 with metrics := fun _ minutes => if minutes = 60 then some [[some (2/10)]] else some [[some (1/100)]] }

/-- Shutdown-path run: idle opted-in instance, live mode, failing stop call. -/
def envShut : ShutdownEnv :=
  { zonesResp := some (some ["us-central1-a"])
    instancesResp := fun z => if z = "us-central1-a" then some (some [vmOpt, vmPlain]) else none
    metrics := fun _ _ => some [[some (1/100)]]
    stopOk := fun _ _ => false
    cpu_threshold := 5
    dry_run := false }

/-- The unrounded resolved cost of every walked instance, in discovery order:
what the running `total_cost` of the reporting path accumulates. -/
def costsOfWalk (e : CostEnv) : List ℚ :=
  (walkVMs e.zonesResp e.instancesResp).map
    (fun p => resolve_cost p.2.name (lastSegment p.2.machineType) e.billing)

/-! Helper lemmas. -/

/-- The running-total loop is the sum of the second components. -/
theorem foldl_add_snd {α : Type} (l : List (α × ℚ)) (a : ℚ) :
    l.foldl (fun acc p => acc + p.2) a = a + (l.map Prod.snd).sum := by
  induction l generalizing a with
  | nil => simp
  | cons h t ih => simp [ih, add_assoc]

/-- A successful dictionary lookup returns a value stored in the dictionary. -/
theorem dictGet_some_mem {α : Type} (k : String) (b : List (String × α)) (v : α)
    (h : dictGet k b = some v) : ∃ p ∈ b, p.2 = v := by
  induction b with
  | nil => simp [dictGet] at h
  | cons hd t ih =>
    rw [dictGet] at h
    split at h
    · exact ⟨hd, List.mem_cons_self hd t, Option.some.inj h⟩
    · obtain ⟨p, hp, hv⟩ := ih h
      exact ⟨p, List.mem_cons_of_mem hd hp, hv⟩

/-- Every rate in the static table, the default included, is positive. -/
theorem estimate_cost_by_machine_pos (mt : String) : 0 < estimate_cost_by_machine mt := by
  unfold estimate_cost_by_machine
  split_ifs <;> norm_num

/-! Claim theorems. -/

/-- C1: for every threshold `T` and 12-hour reading `r`, the classifier yields
`Idle` iff `r*100 < T`, and `Active` when `r*100 = T`; the reporting path's
entry state is exactly this classification of its 12-hour average, and in the
shutdown path an opted-in instance takes the idle branch iff
`cpu_avg_12h*100 < threshold`. -/
theorem c1_idle_iff_strictly_below_threshold :
    (∀ T r : ℚ, classifyState r T = "Idle" ↔ r * 100 < T) ∧
    (∀ T r : ℚ, r * 100 = T → classifyState r T = "Active") ∧
    (∀ (e : CostEnv) (zone : String) (vm : VM),
      (processVM e zone vm).1.state =
        classifyState (get_cpu_avg (e.metrics vm.id 720)) e.cpu_threshold) ∧
    (∀ (e : ShutdownEnv) (zone : String) (vm : VM),
      dictGet "auto-shutdown" vm.labels = some "true" →
      ((shutdownStep e zone vm).action.isIdleAction = true ↔
        get_cpu_usage (e.metrics vm.id 720) * 100 < e.cpu_threshold)) := by
  refine ⟨?_, ?_, ?_, ?_⟩
  · intro T r
    by_cases h : r * 100 < T <;> simp [classifyState, h]
  · intro T r h
    simp [classifyState, h]
  · intro e zone vm
    rfl
  · intro e zone vm hlab
    dsimp only [shutdownStep]
    rw [if_neg (by simp [hlab])]
    by_cases hc : get_cpu_usage (e.metrics vm.id 720) * 100 < e.cpu_threshold
    · rw [if_pos hc]
      cases e.dry_run <;> cases e.stopOk zone vm.name <;>
        simp [SAction.isIdleAction, hc]
    · rw [if_neg hc]
      simp [SAction.isIdleAction, hc]

/-- C1 witness: at threshold 5, reading 0.02 classifies Idle; in the shutdown
path the opted-in instance of `envShut` (12h average 0.01) takes the idle
branch. -/
theorem c1_witness :
    classifyState (2/100) 5 = "Idle" ∧
    (shutdownStep envShut "us-central1-a" vmOpt).action.isIdleAction = true := by
  constructor
  · exact (c1_idle_iff_strictly_below_threshold.1 5 (2/100)).mpr (by norm_num)
  · refine (c1_idle_iff_strictly_below_threshold.2.2.2 envShut "us-central1-a" vmOpt rfl).mpr ?_
    have h : get_cpu_usage (envShut.metrics vmOpt.id 720) =
        [(1:ℚ)/100].sum / (([(1:ℚ)/100].length : ℕ) : ℚ) := rfl
    have ht : envShut.cpu_threshold = 5 := rfl
    rw [h, ht]
    norm_num

/-- C3: cost resolution returns the billing-map value verbatim whenever the
instance name is mapped, whatever the machine type; otherwise it returns
`rate(machine_type)*24` from the static table with default 0.05, and for the
absent instance with machine type `e2-medium` that is `0.0332*24 = 0.7968`. -/
theorem c3_resolve_cost_definition :
    (∀ (name mt : String) (b : List (String × ℚ)) (c : ℚ),
      dictGet name b = some c → resolve_cost name mt b = c) ∧
    (∀ (name mt : String) (b : List (String × ℚ)),
      dictGet name b = none →
      resolve_cost name mt b = estimate_cost_by_machine mt * 24) ∧
    (∀ (name : String) (b : List (String × ℚ)),
      dictGet name b = none → resolve_cost name "e2-medium" b = 0.7968) := by
  refine ⟨?_, ?_, ?_⟩
  · intro name mt b c h
    simp only [resolve_cost, h]
  · intro name mt b h
    simp only [resolve_cost, h]
  · intro name b h
    have he : estimate_cost_by_machine "e2-medium" = 0.0332 := rfl
    simp only [resolve_cost, h, he]
    norm_num

/-- C3 witness: a mapped instance returns its billing value for two different
machine types, and an absent instance with `e2-medium` costs 0.7968. -/
theorem c3_witness :
    resolve_cost "vm-a" "e2-micro" [("vm-a", 42)] = 42 ∧
    resolve_cost "vm-a" "n1-standard-2" [("vm-a", 42)] = 42 ∧
    resolve_cost "ghost" "e2-medium" [("vm-a", 42)] = 0.7968 :=
  ⟨c3_resolve_cost_definition.1 "vm-a" "e2-micro" [("vm-a", 42)] 42 rfl,
   c3_resolve_cost_definition.1 "vm-a" "n1-standard-2" [("vm-a", 42)] 42 rfl,
   c3_resolve_cost_definition.2.2 "ghost" [("vm-a", 42)] rfl⟩

/-- C4: both metric aggregators are total functions (the embedded query outcome
carries the raised-exception case explicitly, so no call can escape): a failed
query or an empty collected point set yields exactly 0, and a non-empty point
set yields the arithmetic mean of all values across all returned series. -/
theorem c4_metric_aggregator_mean_or_zero :
    (get_cpu_avg none = 0 ∧ get_cpu_usage none = 0) ∧
    (∀ series : List (List (Option ℚ)), collectPoints series = [] →
      get_cpu_avg (some series) = 0 ∧ get_cpu_usage (some series) = 0) ∧
    (∀ series : List (List (Option ℚ)), collectPoints series ≠ [] →
      get_cpu_avg (some series) =
        (collectPoints series).sum / (collectPoints series).length ∧
      get_cpu_usage (some series) =
        (collectPoints series).sum / (collectPoints series).length) := by
  refine ⟨⟨rfl, rfl⟩, ?_, ?_⟩
  · intro s h
    constructor <;> simp [get_cpu_avg, get_cpu_usage, h]
  · intro s h
    constructor <;> simp [get_cpu_avg, get_cpu_usage, h]

/-- C4 witness: a failed query gives 0, and a two-series point set with an
absent `double_value` averages exactly its present values. -/
theorem c4_witness :
    get_cpu_avg none = 0 ∧
    collectPoints [[some (1/2), none], [some (1/4)]] ≠ [] ∧
    get_cpu_avg (some [[some (1/2), none], [some (1/4)]]) =
      (collectPoints [[some (1/2), none], [some (1/4)]]).sum /
        (collectPoints [[some (1/2), none], [some (1/4)]]).length := by
  have hne : collectPoints [[some ((1:ℚ)/2), none], [some (1/4)]] ≠ [] := by
    have h : collectPoints [[some ((1:ℚ)/2), none], [some (1/4)]] = [1/2, 1/4] := rfl
    rw [h]
    simp
  exact ⟨c4_metric_aggregator_mean_or_zero.1.1, hne,
    (c4_metric_aggregator_mean_or_zero.2.2 _ hne).1⟩

/-- C5: an instance whose labels do not map `auto-shutdown` to exactly `"true"`
is skipped with zero metric queries and zero stop calls. -/
theorem c5_unlabeled_skip_no_query :
    ∀ (e : ShutdownEnv) (zone : String) (vm : VM),
      dictGet "auto-shutdown" vm.labels ≠ some "true" →
      shutdownStep e zone vm = ⟨.skipNoLabel vm.name, 0, 0⟩ := by
  intro e zone vm h
  simp [shutdownStep, h]

/-- C5 witness: the instance labeled only `team=infra` is skipped with no
metric query and no stop call. -/
theorem c5_witness :
    shutdownStep envShut "us-central1-a" vmPlain = ⟨.skipNoLabel "vm-plain", 0, 0⟩ :=
  c5_unlabeled_skip_no_query envShut "us-central1-a" vmPlain (by decide)

/-- C6: an opted-in idle instance yields the dry-run line with zero stop calls
when dry-run is on; with dry-run off, the stop call is issued exactly once, the
line is the stopped line on success and the error line on failure; and every
walked VM yields exactly one outcome regardless (a failed stop never aborts the
remaining instances). -/
theorem c6_idle_optin_stop_behavior :
    (∀ (e : ShutdownEnv) (zone : String) (vm : VM),
      dictGet "auto-shutdown" vm.labels = some "true" →
      get_cpu_usage (e.metrics vm.id 720) * 100 < e.cpu_threshold →
      (e.dry_run = true →
        shutdownStep e zone vm =
          ⟨.dryRunWouldStop vm.name (get_cpu_usage (e.metrics vm.id 720) * 100), 1, 0⟩) ∧
      (e.dry_run = false → e.stopOk zone vm.name = true →
        shutdownStep e zone vm =
          ⟨.stoppedOk vm.name (get_cpu_usage (e.metrics vm.id 720) * 100), 1, 1⟩) ∧
      (e.dry_run = false → e.stopOk zone vm.name = false →
        shutdownStep e zone vm = ⟨.errorStopping vm.name, 1, 1⟩)) ∧
    (∀ e : ShutdownEnv,
      (runShutdown e).length = (walkVMs e.zonesResp e.instancesResp).length) := by
  constructor
  · intro e zone vm hlab hc
    refine ⟨?_, ?_, ?_⟩
    · intro hd
      simp [shutdownStep, hlab, hc, hd]
    · intro hd hs
      simp [shutdownStep, hlab, hc, hd, hs]
    · intro hd hs
      simp [shutdownStep, hlab, hc, hd, hs]
  · intro e
    simp [runShutdown]

/-- C6 witness: in `envShut` (dry-run off, failing stop, 1% CPU) the opted-in
instance gets the error line after one issued stop call, and the run still has
one outcome per walked VM. -/
theorem c6_witness :
    shutdownStep envShut "us-central1-a" vmOpt = ⟨.errorStopping "vm-opt", 1, 1⟩ ∧
    (runShutdown envShut).length = (walkVMs envShut.zonesResp envShut.instancesResp).length := by
  have hc : get_cpu_usage (envShut.metrics vmOpt.id 720) * 100 < envShut.cpu_threshold := by
    have h : get_cpu_usage (envShut.metrics vmOpt.id 720) =
        [(1:ℚ)/100].sum / (([(1:ℚ)/100].length : ℕ) : ℚ) := rfl
    have ht : envShut.cpu_threshold = 5 := rfl
    rw [h, ht]
    norm_num
  exact ⟨(c6_idle_optin_stop_behavior.1 envShut "us-central1-a" vmOpt rfl hc).2.2 rfl rfl,
    c6_idle_optin_stop_behavior.2 envShut⟩

/-- Every shutdown action line names the VM it was produced from. -/
theorem shutdownStep_aname (e : ShutdownEnv) (zone : String) (vm : VM) :
    (shutdownStep e zone vm).action.aname = vm.name := by
  dsimp only [shutdownStep]
  split_ifs <;> rfl

/-- C9: each walked VM yields exactly one output element, and the output
preserves discovery order (zone-major, then within-zone listing order): the
report's instance entries project, in order, to the walked `(name, zone)`
pairs, and the shutdown result lines name, in order, the walked VMs. -/
theorem c9_one_output_per_vm_in_discovery_order :
    (∀ e : CostEnv,
      (runReport e).instances.map (fun en => (en.name, en.zone)) =
        (walkVMs e.zonesResp e.instancesResp).map (fun p => (p.2.name, p.1))) ∧
    (∀ e : ShutdownEnv,
      (runShutdown e).map (fun o => o.action.aname) =
        (walkVMs e.zonesResp e.instancesResp).map (fun p => p.2.name)) := by
  constructor
  · intro e
    dsimp only [runReport]
    simp only [List.map_map]
    rfl
  · intro e
    dsimp only [runShutdown]
    simp only [List.map_map]
    apply List.map_congr_left
    intro p _
    exact shutdownStep_aname e p.1 p.2

/-- C10: the HTTP triple returned by the reporting path's `main` is the same
whatever the SendGrid configuration and whatever the outcome of the POST
(success, non-2xx status, or exception): the send result is only logged. -/
theorem c10_response_independent_of_send_outcome :
    ∀ (e : CostEnv) (k1 a1 f1 k2 a2 f2 : String) (n1 n2 : HttpOutcome),
      (mainReport e k1 a1 f1 n1).1 = (mainReport e k2 a2 f2 n2).1 := by
  intro e k1 a1 f1 k2 a2 f2 n1 n2
  rfl

/-- C8: two reporting runs over the same fleet inventory, billing map and
threshold that can differ only in the 1-hour metric readings give every
instance the identical name, zone and state: the classification reads only the
12-hour average. -/
theorem c8_state_noninterference_of_1h_reading :
    ∀ e1 e2 : CostEnv,
      e1.zonesResp = e2.zonesResp →
      e1.instancesResp = e2.instancesResp →
      e1.billing = e2.billing →
      e1.cpu_threshold = e2.cpu_threshold →
      (∀ id, e1.metrics id 720 = e2.metrics id 720) →
      (runReport e1).instances.map (fun en => (en.name, en.zone, en.state)) =
        (runReport e2).instances.map (fun en => (en.name, en.zone, en.state)) := by
  intro e1 e2 hz hi hb ht hm
  have hw : walkVMs e1.zonesResp e1.instancesResp = walkVMs e2.zonesResp e2.instancesResp := by
    rw [hz, hi]
  dsimp only [runReport]
  simp only [List.map_map]
  rw [hw]
  apply List.map_congr_left
  intro p _
  show ((processVM e1 p.1 p.2).1.name, (processVM e1 p.1 p.2).1.zone,
      (processVM e1 p.1 p.2).1.state) = _
  dsimp only [processVM]
  rw [hm p.2.id, ht]
  rfl

/-- C8 witness: `envNI1` and `envNI2` differ only in the 1-hour reading (0.9
versus 0.2) and classify both instances identically. -/
theorem c8_witness :
    (runReport envNI1).instances.map (fun en => (en.name, en.zone, en.state)) =
      (runReport envNI2).instances.map (fun en => (en.name, en.zone, en.state)) :=
  c8_state_noninterference_of_1h_reading envNI1 envNI2 rfl rfl rfl rfl (fun _ => rfl)

/-- C2 as stated is false: each listed `cost_24h` is rounded to 4 decimals
individually while `total_cost_24h` rounds the unrounded running total once, so
on `envRound` (two instances of exact cost 0.00003 each) the listed values are
0 and 0 but the reported total is 0.0001. -/
theorem c2_counterexample_total_vs_listed_sum :
    (runReport envRound).total_cost_24h ≠
      ((runReport envRound).instances.map (fun en => en.cost_24h)).sum := by
  have h1 : (runReport envRound).total_cost_24h =
      pyRound 4 (0 + 3/100000 + 3/100000) := rfl
  have h2 : ((runReport envRound).instances.map (fun en => en.cost_24h)).sum =
      pyRound 4 (3/100000) + (pyRound 4 (3/100000) + 0) := rfl
  rw [h1, h2]
  norm_num [pyRound, roundHalfEven]

/-- C2 amended: `total_cost_24h` is the exact full-precision sum of the
resolved costs of exactly the instances included in the report, rounded once at
the end, and each listed `cost_24h` is the same resolved cost rounded
individually — so the total can differ from the sum of the listed values only
by that final rounding. -/
theorem c2_total_is_once_rounded_exact_sum :
    ∀ e : CostEnv,
      (runReport e).total_cost_24h = pyRound 4 (costsOfWalk e).sum ∧
      (runReport e).instances.map (fun en => en.cost_24h) =
        (costsOfWalk e).map (pyRound 4) := by
  intro e
  constructor
  · dsimp only [runReport]
    rw [foldl_add_snd, zero_add]
    congr 1
    simp only [List.map_map]
    rfl
  · dsimp only [runReport, costsOfWalk]
    simp only [List.map_map]
    rfl

/-- C7 as stated is false: the code returns the billing-map value verbatim, so
a billing map carrying a negative value (which nothing in the code excludes)
resolves to a negative cost. -/
theorem c7_counterexample_negative_billing :
    ¬ (0 ≤ resolve_cost "vm-a" "e2-micro" [("vm-a", -1)]) := by
  have h : resolve_cost "vm-a" "e2-micro" [("vm-a", -1)] = -1 := rfl
  rw [h]
  norm_num

/-- C7 amended: the resolved cost is non-negative for every billing map whose
stored values are all non-negative, and it is strictly positive whenever the
instance name is absent from the billing map (the estimate path). -/
theorem c7_resolved_cost_nonneg :
    (∀ (name mt : String) (b : List (String × ℚ)),
      (∀ p ∈ b, 0 ≤ p.2) → 0 ≤ resolve_cost name mt b) ∧
    (∀ (name mt : String) (b : List (String × ℚ)),
      dictGet name b = none → 0 < resolve_cost name mt b) := by
  constructor
  · intro name mt b hb
    rcases hd : dictGet name b with _ | c
    · simp only [resolve_cost, hd]
      exact le_of_lt (mul_pos (estimate_cost_by_machine_pos mt) (by norm_num))
    · simp only [resolve_cost, hd]
      obtain ⟨p, hp, hv⟩ := dictGet_some_mem name b c hd
      exact hv ▸ hb p hp
  · intro name mt b hd
    simp only [resolve_cost, hd]
    exact mul_pos (estimate_cost_by_machine_pos mt) (by norm_num)

/-- C7 witness: a non-negative billing map resolves non-negatively, and an
absent name resolves strictly positively. -/
theorem c7_witness :
    0 ≤ resolve_cost "vm-a" "e2-micro" [("vm-a", 42)] ∧
    0 < resolve_cost "ghost" "never-seen-type" [("vm-a", 42)] :=
  ⟨c7_resolved_cost_nonneg.1 "vm-a" "e2-micro" [("vm-a", 42)]
      (by intro p hp; simp only [List.mem_singleton] at hp; subst hp; norm_num),
   c7_resolved_cost_nonneg.2 "ghost" "never-seen-type" [("vm-a", 42)] rfl⟩

end CostOpt
